import Mathlib

/-! Verification of the grid-cube displacement and classification engine.

The definitions below are shallow embeddings of the JavaScript sources of
the repository: the pure classification module (isInsideCube, isOnCubeEdge,
isInsideSphere, isOnSphereSurface, isInsideShape, isOnShapeShell,
isInClothRegion, classifyPoint), the displacement function calculateZPull
and the line-building code of updateVisualization in script3d.js, and the
2D front-grid line admission of drawDualGrid in script.js.  Real numbers
stand for the JavaScript number type. -/

namespace GridCube

/-- Shape selector: the source dispatches on the strings "cube" and
"sphere"; any other string falls through every branch. -/
inductive ShapeType where
  | cube
  | sphere
  | otherShape
deriving DecidableEq

/-- Region labels returned by classifyPoint: the source strings are
"shape-shell", "inside-shape" and "cloth". -/
inductive RegionLabel where
  | shell
  | interior
  | cloth
deriving DecidableEq

/-- isInsideCube from the classification module: Chebyshev distance from
the center is at most cubeSize - 1. -/
def isInsideCube (i j centerX centerY cubeSize : ℝ) : Prop :=
  max |i - centerX| |j - centerY| ≤ cubeSize - 1

/-- isOnCubeEdge from the classification module: Chebyshev distance from
the center equals cubeSize - 1 exactly. -/
def isOnCubeEdge (i j centerX centerY cubeSize : ℝ) : Prop :=
  max |i - centerX| |j - centerY| = cubeSize - 1

/-- The Euclidean distance computed inside isInsideSphere and
isOnSphereSurface: sqrt of dx*dx + dy*dy. -/
noncomputable def sphereDistance (i j centerX centerY : ℝ) : ℝ :=
  Real.sqrt ((i - centerX) * (i - centerX) + (j - centerY) * (j - centerY))

/-- isInsideSphere from the classification module: Euclidean distance from
the center is at most sphereRadius - 1. -/
def isInsideSphere (i j centerX centerY sphereRadius : ℝ) : Prop :=
  sphereDistance i j centerX centerY ≤ sphereRadius - 1

/-- isOnSphereSurface from the classification module: Euclidean distance
is within 0.7 grid units of sphereRadius - 1. -/
def isOnSphereSurface (i j centerX centerY sphereRadius : ℝ) : Prop :=
  |sphereDistance i j centerX centerY - (sphereRadius - 1)| ≤ 0.7

/-- isInsideShape from the classification module: dispatch on the shape
type, any unknown type returns false. -/
def isInsideShape (i j : ℝ) (shapeType : ShapeType) (size centerX centerY : ℝ) : Prop :=
  match shapeType with
  | .cube => isInsideCube i j centerX centerY size
  | .sphere => isInsideSphere i j centerX centerY size
  | .otherShape => False

/-- isOnShapeShell from the classification module: dispatch on the shape
type, any unknown type returns false. -/
def isOnShapeShell (i j : ℝ) (shapeType : ShapeType) (size centerX centerY : ℝ) : Prop :=
  match shapeType with
  | .cube => isOnCubeEdge i j centerX centerY size
  | .sphere => isOnSphereSurface i j centerX centerY size
  | .otherShape => False

/-- isInClothRegion from the classification module: the displacement of
the point exceeds the 0.1 threshold in absolute value. -/
def isInClothRegion (pull : ℝ) : Prop :=
  0.1 < |pull|

open Classical in
/-- classifyPoint from the classification module: shell first, then
interior, else cloth.  The z and frontGrid parameters of the source are
unused by its body and omitted here. -/
noncomputable def classifyPoint (i j : ℝ) (shapeType : ShapeType)
    (size centerX centerY : ℝ) : RegionLabel :=
  if isOnShapeShell i j shapeType size centerX centerY then .shell
  else if isInsideShape i j shapeType size centerX centerY then .interior
  else .cloth

/-- The configuration record of script3d.js restricted to the fields read
by the geometry core (alpha values and render mode are not needed by the
claims).  gridDensity is the integer slider value. -/
structure Config where
  gridDensity : ℕ
  selectedPointX : ℝ
  selectedPointY : ℝ
  zSeparation : ℝ
  cubeSize : ℝ
  influenceRadius : ℝ
  shapeType : ShapeType

/-- The default configuration of loadConfig in script3d.js: density 20,
center (10,10), zSeparation 200, cubeSize 5, influenceRadius 60, cube. -/
def cfgDefault : Config :=
  ⟨20, 10, 10, 200, 5, 60, .cube⟩

/-- The default configuration with the shape switched to sphere. -/
def cfgSphere : Config :=
  ⟨20, 10, 10, 200, 5, 60, .sphere⟩

/-- The default configuration with influenceRadius set to 0, so the
derived falloff extent is 0. -/
def cfgNoFalloff : Config :=
  ⟨20, 10, 10, 200, 5, 0, .cube⟩

/-- influenceDistance as computed in calculateZPull:
gridDensity * (influenceRadius / 100).  This is the falloff extent. -/
noncomputable def influenceDistance (cfg : Config) : ℝ :=
  (cfg.gridDensity : ℝ) * (cfg.influenceRadius / 100)

/-- gridDistance as computed in calculateZPull of script3d.js: Chebyshev
for the cube branch, Euclidean otherwise. -/
noncomputable def gridDistance (shapeType : ShapeType) (i j cx cy : ℝ) : ℝ :=
  if shapeType = ShapeType.cube then max |i - cx| |j - cy|
  else sphereDistance i j cx cy

/-- The distance of grid point (i, j) from the configured center under the
configured shape metric. -/
noncomputable def pointDistance (cfg : Config) (i j : ℝ) : ℝ :=
  gridDistance cfg.shapeType i j cfg.selectedPointX cfg.selectedPointY

open Classical in
/-- calculateZPull from script3d.js: full displacement up to
cubeSize - 1, cosine falloff on the influence band, zero beyond. -/
noncomputable def calculateZPull (cfg : Config) (i j : ℝ) : ℝ :=
  if pointDistance cfg i j ≤ cfg.cubeSize - 1 then
    cfg.zSeparation
  else if 0 < influenceDistance cfg ∧
      pointDistance cfg i j ≤ cfg.cubeSize - 1 + influenceDistance cfg then
    cfg.zSeparation *
      ((Real.cos ((pointDistance cfg i j - (cfg.cubeSize - 1)) /
          influenceDistance cfg * Real.pi) + 1) / 2)
  else 0

/-- classifyGridPoint from script3d.js: classifyPoint applied to the
configured shape, size and center. -/
noncomputable def classifyGridPoint (cfg : Config) (i j : ℝ) : RegionLabel :=
  classifyPoint i j cfg.shapeType cfg.cubeSize cfg.selectedPointX cfg.selectedPointY

/-- The lateral front-layer segments built by updateVisualization in
script3d.js: for every i, j in 0..gridDensity it pushes the segment to
(i+1, j) when i < gridDensity and the segment to (i, j+1) when
j < gridDensity, with no further condition. -/
def frontLayerSegments (cfg : Config) : List ((ℕ × ℕ) × (ℕ × ℕ)) :=
  (List.range (cfg.gridDensity + 1)).flatMap fun i =>
    (List.range (cfg.gridDensity + 1)).flatMap fun j =>
      (if i < cfg.gridDensity then [((i, j), (i + 1, j))] else []) ++
      (if j < cfg.gridDensity then [((i, j), (i, j + 1))] else [])

/-- The admission test of the Z-direction wall connector in
updateVisualization of script3d.js: the connector from the back point to
the front point at (i, j) is built exactly when the absolute displacement
exceeds 0.1. -/
def zConnectionAdmitted (cfg : Config) (i j : ℕ) : Prop :=
  0.1 < |calculateZPull cfg (i : ℝ) (j : ℝ)|

/-- isInsideCube as defined locally in drawDualGrid of script.js:
Chebyshev distance strictly below cubeSize. -/
def isInsideCube2d (i j centerX centerY cubeSize : ℝ) : Prop :=
  max |i - centerX| |j - centerY| < cubeSize

/-- Horizontal front-grid segment admission in drawDualGrid of script.js:
the segment from (i, j) to (i+1, j) is drawn exactly when both endpoints
satisfy its isInsideCube. -/
def frontSegment2dAdmittedH (cfg : Config) (i j : ℕ) : Prop :=
  i < cfg.gridDensity ∧
  isInsideCube2d (i : ℝ) (j : ℝ) cfg.selectedPointX cfg.selectedPointY cfg.cubeSize ∧
  isInsideCube2d ((i : ℝ) + 1) (j : ℝ) cfg.selectedPointX cfg.selectedPointY cfg.cubeSize

/-- The world spacing of one grid step in updateVisualization:
700 / gridDensity. -/
noncomputable def spacing (cfg : Config) : ℝ :=
  700 / (cfg.gridDensity : ℝ)

/-- The Z coordinate of the flat reference layer in updateVisualization. -/
def backZ : ℝ := -400

/-- The displaced Z coordinate of front point (i, j):
backZ plus its displacement. -/
noncomputable def frontZ (cfg : Config) (i j : ℕ) : ℝ :=
  backZ + calculateZPull cfg (i : ℝ) (j : ℝ)

/-- The height of intermediate slice s in updateVisualization:
backZ + s * spacing * sign(zSeparation). -/
noncomputable def sliceZ (cfg : Config) (s : ℕ) : ℝ :=
  backZ + (s : ℝ) * spacing cfg * Real.sign cfg.zSeparation

/-- isInFootprint from updateVisualization: the slice height z lies
beyond backZ in the displacement direction and short of the displaced
height fz of the point. -/
def isInFootprint (cfg : Config) (z fz : ℝ) : Prop :=
  (0 < cfg.zSeparation ∧ backZ < z ∧ z < fz) ∨
  (cfg.zSeparation < 0 ∧ z < backZ ∧ fz < z)

/-- A horizontal segment of slice s between (i, j) and (i+1, j) is pushed
by updateVisualization exactly when the index is in range and both
endpoints pass the isInFootprint test. -/
def sliceSegmentEmittedH (cfg : Config) (s i j : ℕ) : Prop :=
  i < cfg.gridDensity ∧
  isInFootprint cfg (sliceZ cfg s) (frontZ cfg i j) ∧
  isInFootprint cfg (sliceZ cfg s) (frontZ cfg (i + 1) j)

/-- A vertical segment of slice s between (i, j) and (i, j+1) is pushed
by updateVisualization exactly when the index is in range and both
endpoints pass the isInFootprint test. -/
def sliceSegmentEmittedV (cfg : Config) (s i j : ℕ) : Prop :=
  j < cfg.gridDensity ∧
  isInFootprint cfg (sliceZ cfg s) (frontZ cfg i j) ∧
  isInFootprint cfg (sliceZ cfg s) (frontZ cfg i (j + 1))

/-- b lies strictly between a and c, in either order. -/
def strictlyBetween (a b c : ℝ) : Prop :=
  (a < b ∧ b < c) ∨ (c < b ∧ b < a)

/-! Evaluation helper lemmas shared by several of the claim theorems. -/

lemma pointDistance_cfgDefault (i j : ℝ) :
    pointDistance cfgDefault i j = max |i - 10| |j - 10| := by
  simp [pointDistance, gridDistance, cfgDefault]

lemma influenceDistance_cfgDefault : influenceDistance cfgDefault = 12 := by
  norm_num [influenceDistance, cfgDefault]

lemma calculateZPull_cfgDefault_center : calculateZPull cfgDefault 10 10 = 200 := by
  have h1 : pointDistance cfgDefault 10 10 ≤ cfgDefault.cubeSize - 1 := by
    rw [pointDistance_cfgDefault]
    norm_num [cfgDefault]
  unfold calculateZPull
  rw [if_pos h1]
  norm_num [cfgDefault]

lemma classifyGridPoint_cfgDefault_interior10 :
    classifyGridPoint cfgDefault 10 10 = RegionLabel.interior := by
  have hns : ¬ isOnShapeShell 10 10 cfgDefault.shapeType cfgDefault.cubeSize
      cfgDefault.selectedPointX cfgDefault.selectedPointY := by
    simp only [cfgDefault, isOnShapeShell, isOnCubeEdge]
    norm_num
  have hin : isInsideShape 10 10 cfgDefault.shapeType cfgDefault.cubeSize
      cfgDefault.selectedPointX cfgDefault.selectedPointY := by
    simp only [cfgDefault, isInsideShape, isInsideCube]
    norm_num
  unfold classifyGridPoint classifyPoint
  rw [if_neg hns, if_pos hin]

lemma classifyGridPoint_cfgDefault_interior11 :
    classifyGridPoint cfgDefault 11 10 = RegionLabel.interior := by
  have hns : ¬ isOnShapeShell 11 10 cfgDefault.shapeType cfgDefault.cubeSize
      cfgDefault.selectedPointX cfgDefault.selectedPointY := by
    simp only [cfgDefault, isOnShapeShell, isOnCubeEdge]
    norm_num
  have hin : isInsideShape 11 10 cfgDefault.shapeType cfgDefault.cubeSize
      cfgDefault.selectedPointX cfgDefault.selectedPointY := by
    simp only [cfgDefault, isInsideShape, isInsideCube]
    norm_num
  unfold classifyGridPoint classifyPoint
  rw [if_neg hns, if_pos hin]

lemma isOnShapeShell_cube_14_10 : isOnShapeShell 14 10 ShapeType.cube 5 10 10 := by
  simp only [isOnShapeShell, isOnCubeEdge]
  norm_num

/-! The claim theorems. -/

/-- C1: for every configuration and coordinate, calculateZPull implements
the two-zone profile over the shape distance d (Chebyshev for the cube,
Euclidean for the sphere): full zSeparation when d is at most
cubeSize - 1, the cosine falloff value when the falloff extent is positive
and d is at most (cubeSize - 1) + extent, and zero otherwise. -/
theorem spec_C1 (cfg : Config) (i j : ℝ) :
    (cfg.shapeType = ShapeType.cube →
      pointDistance cfg i j = max |i - cfg.selectedPointX| |j - cfg.selectedPointY|) ∧
    (cfg.shapeType = ShapeType.sphere →
      pointDistance cfg i j = sphereDistance i j cfg.selectedPointX cfg.selectedPointY) ∧
    (pointDistance cfg i j ≤ cfg.cubeSize - 1 →
      calculateZPull cfg i j = cfg.zSeparation) ∧
    (¬ pointDistance cfg i j ≤ cfg.cubeSize - 1 →
      0 < influenceDistance cfg →
      pointDistance cfg i j ≤ cfg.cubeSize - 1 + influenceDistance cfg →
      calculateZPull cfg i j =
        cfg.zSeparation *
          ((Real.cos ((pointDistance cfg i j - (cfg.cubeSize - 1)) /
              influenceDistance cfg * Real.pi) + 1) / 2)) ∧
    (¬ pointDistance cfg i j ≤ cfg.cubeSize - 1 →
      ¬ (0 < influenceDistance cfg ∧
          pointDistance cfg i j ≤ cfg.cubeSize - 1 + influenceDistance cfg) →
      calculateZPull cfg i j = 0) := by
  refine ⟨fun hc => ?_, fun hc => ?_, fun h1 => ?_, fun h1 h2 h3 => ?_, fun h1 h2 => ?_⟩
  · simp [pointDistance, gridDistance, hc]
  · simp [pointDistance, gridDistance, hc]
  · unfold calculateZPull
    rw [if_pos h1]
  · unfold calculateZPull
    rw [if_neg h1, if_pos ⟨h2, h3⟩]
  · unfold calculateZPull
    rw [if_neg h1, if_neg h2]

/-- Witness for C1 at the default configuration, point (16, 10): distance
6 is outside the shape (cubeSize 5) and inside the falloff band of extent
12, so the cosine falloff branch gives the value. -/
theorem spec_C1_witness :
    ¬ pointDistance cfgDefault 16 10 ≤ cfgDefault.cubeSize - 1 ∧
    0 < influenceDistance cfgDefault ∧
    pointDistance cfgDefault 16 10 ≤ cfgDefault.cubeSize - 1 + influenceDistance cfgDefault ∧
    calculateZPull cfgDefault 16 10 =
      cfgDefault.zSeparation *
        ((Real.cos ((pointDistance cfgDefault 16 10 - (cfgDefault.cubeSize - 1)) /
            influenceDistance cfgDefault * Real.pi) + 1) / 2) := by
  have h1 : ¬ pointDistance cfgDefault 16 10 ≤ cfgDefault.cubeSize - 1 := by
    rw [pointDistance_cfgDefault]
    norm_num [cfgDefault]
  have h2 : 0 < influenceDistance cfgDefault := by
    rw [influenceDistance_cfgDefault]
    norm_num
  have h3 : pointDistance cfgDefault 16 10 ≤ cfgDefault.cubeSize - 1 + influenceDistance cfgDefault := by
    rw [pointDistance_cfgDefault, influenceDistance_cfgDefault]
    norm_num [cfgDefault]
  exact ⟨h1, h2, h3, (spec_C1 cfgDefault 16 10).2.2.2.1 h1 h2 h3⟩

/-- C2: classifyPoint is total and applies the precedence shell, then
interior, then cloth; every point receives exactly one of the three
labels. -/
theorem spec_C2 (i j : ℝ) (t : ShapeType) (s cx cy : ℝ) :
    (isOnShapeShell i j t s cx cy → classifyPoint i j t s cx cy = RegionLabel.shell) ∧
    (¬ isOnShapeShell i j t s cx cy → isInsideShape i j t s cx cy →
      classifyPoint i j t s cx cy = RegionLabel.interior) ∧
    (¬ isOnShapeShell i j t s cx cy → ¬ isInsideShape i j t s cx cy →
      classifyPoint i j t s cx cy = RegionLabel.cloth) ∧
    (classifyPoint i j t s cx cy = RegionLabel.shell ∨
      classifyPoint i j t s cx cy = RegionLabel.interior ∨
      classifyPoint i j t s cx cy = RegionLabel.cloth) := by
  unfold classifyPoint
  split_ifs with h1 h2
  · exact ⟨fun _ => rfl, fun hn => absurd h1 hn, fun hn => absurd h1 hn, Or.inl rfl⟩
  · exact ⟨fun hs => absurd hs h1, fun _ _ => rfl, fun _ hn => absurd h2 hn,
      Or.inr (Or.inl rfl)⟩
  · exact ⟨fun hs => absurd hs h1, fun _ hi => absurd hi h2, fun _ _ => rfl,
      Or.inr (Or.inr rfl)⟩

/-- Witness for C2 at the cube shell point (14, 10) with size 5 and
center (10, 10): the shell branch fires. -/
theorem spec_C2_witness :
    isOnShapeShell 14 10 ShapeType.cube 5 10 10 ∧
    classifyPoint 14 10 ShapeType.cube 5 10 10 = RegionLabel.shell :=
  ⟨isOnShapeShell_cube_14_10,
    (spec_C2 14 10 ShapeType.cube 5 10 10).1 isOnShapeShell_cube_14_10⟩

/-- C9: with falloff extent 0 the displacement is zSeparation at distance
at most cubeSize - 1 and exactly 0 beyond, no intermediate value occurs,
and the guard of the falloff branch (which contains the division) is
false. -/
theorem spec_C9 (cfg : Config) (i j : ℝ) (hE : influenceDistance cfg = 0) :
    (pointDistance cfg i j ≤ cfg.cubeSize - 1 →
      calculateZPull cfg i j = cfg.zSeparation) ∧
    (¬ pointDistance cfg i j ≤ cfg.cubeSize - 1 →
      calculateZPull cfg i j = 0) ∧
    (calculateZPull cfg i j = cfg.zSeparation ∨ calculateZPull cfg i j = 0) ∧
    ¬ (0 < influenceDistance cfg ∧
        pointDistance cfg i j ≤ cfg.cubeSize - 1 + influenceDistance cfg) := by
  have hguard : ¬ (0 < influenceDistance cfg ∧
      pointDistance cfg i j ≤ cfg.cubeSize - 1 + influenceDistance cfg) := by
    rintro ⟨h0, -⟩
    rw [hE] at h0
    exact lt_irrefl 0 h0
  have hfull : pointDistance cfg i j ≤ cfg.cubeSize - 1 →
      calculateZPull cfg i j = cfg.zSeparation := by
    intro h1
    unfold calculateZPull
    rw [if_pos h1]
  have hzero : ¬ pointDistance cfg i j ≤ cfg.cubeSize - 1 →
      calculateZPull cfg i j = 0 := by
    intro h1
    unfold calculateZPull
    rw [if_neg h1, if_neg hguard]
  refine ⟨hfull, hzero, ?_, hguard⟩
  by_cases h1 : pointDistance cfg i j ≤ cfg.cubeSize - 1
  · exact Or.inl (hfull h1)
  · exact Or.inr (hzero h1)

/-- Witness for C9 at the zero-falloff configuration, point (16, 10):
distance 6 exceeds cubeSize - 1 = 4 and the displacement is exactly 0. -/
theorem spec_C9_witness :
    influenceDistance cfgNoFalloff = 0 ∧
    ¬ pointDistance cfgNoFalloff 16 10 ≤ cfgNoFalloff.cubeSize - 1 ∧
    calculateZPull cfgNoFalloff 16 10 = 0 := by
  have hE : influenceDistance cfgNoFalloff = 0 := by
    norm_num [influenceDistance, cfgNoFalloff]
  have h1 : ¬ pointDistance cfgNoFalloff 16 10 ≤ cfgNoFalloff.cubeSize - 1 := by
    simp only [pointDistance, gridDistance, cfgNoFalloff]
    norm_num
  exact ⟨hE, h1, (spec_C9 cfgNoFalloff 16 10 hE).2.1 h1⟩

/-- C10: for a cube of size 1 the center point has Chebyshev distance 0,
satisfies both the shell and the inside predicate, and classifyPoint
returns shell because the shell test precedes the inside test. -/
theorem spec_C10 (cx cy : ℝ) :
    max |cx - cx| |cy - cy| = 0 ∧
    isOnCubeEdge cx cy cx cy 1 ∧
    isInsideCube cx cy cx cy 1 ∧
    classifyPoint cx cy ShapeType.cube 1 cx cy = RegionLabel.shell := by
  have hd : max |cx - cx| |cy - cy| = 0 := by
    simp
  have hshell : isOnCubeEdge cx cy cx cy 1 := by
    unfold isOnCubeEdge
    rw [hd]
    norm_num
  have hin : isInsideCube cx cy cx cy 1 := by
    unfold isInsideCube
    rw [hd]
    norm_num
  have hshell2 : isOnShapeShell cx cy ShapeType.cube 1 cx cy := hshell
  refine ⟨hd, hshell, hin, ?_⟩
  unfold classifyPoint
  rw [if_pos hshell2]

lemma sphereDistance_14_10 : sphereDistance 14 10 10 10 = 4 := by
  unfold sphereDistance
  rw [show ((14:ℝ) - 10) * ((14:ℝ) - 10) + ((10:ℝ) - 10) * ((10:ℝ) - 10) = 4 * 4 by norm_num]
  exact Real.sqrt_mul_self (by norm_num)

lemma sphereDistance_13_13 : sphereDistance 13 13 10 10 = Real.sqrt 18 := by
  unfold sphereDistance
  norm_num

lemma sqrt18_gt_four : (4:ℝ) < Real.sqrt 18 := by
  rw [Real.lt_sqrt (by norm_num)]
  norm_num

lemma sqrt18_lt : Real.sqrt 18 < 4.3 := by
  rw [Real.sqrt_lt' (by norm_num)]
  norm_num

/-- C4, counterexample: under the sphere predicate the integer grid point
(13, 13) with size 5 and center (10, 10) is classified Shell (its
Euclidean distance sqrt 18 is within 0.7 of 4), yet calculateZPull does
not return zSeparation there: the distance exceeds cubeSize - 1, so the
cosine falloff branch fires with a value strictly below zSeparation. -/
theorem spec_C4_cex :
    isOnShapeShell 13 13 ShapeType.sphere 5 10 10 ∧
    calculateZPull cfgSphere 13 13 ≠ cfgSphere.zSeparation := by
  have hlt := sqrt18_gt_four
  have hlt2 := sqrt18_lt
  have hshell : isOnShapeShell 13 13 ShapeType.sphere 5 10 10 := by
    show |sphereDistance 13 13 10 10 - (5 - 1)| ≤ 0.7
    rw [sphereDistance_13_13, abs_le]
    constructor <;> linarith
  have hpd : pointDistance cfgSphere 13 13 = Real.sqrt 18 := by
    have h : pointDistance cfgSphere 13 13 = sphereDistance 13 13 10 10 := by
      simp [pointDistance, gridDistance, cfgSphere]
    rw [h, sphereDistance_13_13]
  have hE : influenceDistance cfgSphere = 12 := by
    norm_num [influenceDistance, cfgSphere]
  refine ⟨hshell, ?_⟩
  have h1 : ¬ pointDistance cfgSphere 13 13 ≤ cfgSphere.cubeSize - 1 := by
    rw [hpd]
    show ¬ Real.sqrt 18 ≤ (5:ℝ) - 1
    push_neg
    linarith
  have h2 : 0 < influenceDistance cfgSphere ∧
      pointDistance cfgSphere 13 13 ≤ cfgSphere.cubeSize - 1 + influenceDistance cfgSphere := by
    rw [hpd, hE]
    refine ⟨by norm_num, ?_⟩
    show Real.sqrt 18 ≤ (5:ℝ) - 1 + 12
    linarith
  unfold calculateZPull
  rw [if_neg h1, if_pos h2, hpd, hE]
  show (200:ℝ) * ((Real.cos ((Real.sqrt 18 - ((5:ℝ) - 1)) / 12 * Real.pi) + 1) / 2) ≠ 200
  intro heq
  have hπ := Real.pi_pos
  have harg : (0:ℝ) < (Real.sqrt 18 - (5 - 1)) / 12 * Real.pi := by
    apply mul_pos _ hπ
    linarith
  have harg2 : (Real.sqrt 18 - (5 - 1)) / 12 * Real.pi < 2 * Real.pi := by
    have hb : (Real.sqrt 18 - ((5:ℝ) - 1)) / 12 < 2 := by linarith
    nlinarith
  have hcos : Real.cos ((Real.sqrt 18 - ((5:ℝ) - 1)) / 12 * Real.pi) = 1 := by linarith
  have hzero := (Real.cos_eq_one_iff_of_lt_of_lt (by linarith) harg2).mp hcos
  linarith

/-- C4, amended: full displacement on the shell holds unconditionally for
the cube shell predicate, and for any shape at shell points whose metric
distance is at most cubeSize - 1; sphere shell points beyond that
distance are not covered (the counterexample shows they receive the
falloff value instead). -/
theorem spec_C4 (cfg : Config) (i j : ℝ) :
    (cfg.shapeType = ShapeType.cube →
      isOnShapeShell i j cfg.shapeType cfg.cubeSize cfg.selectedPointX cfg.selectedPointY →
      calculateZPull cfg i j = cfg.zSeparation) ∧
    (pointDistance cfg i j ≤ cfg.cubeSize - 1 →
      calculateZPull cfg i j = cfg.zSeparation) := by
  have hfull : pointDistance cfg i j ≤ cfg.cubeSize - 1 →
      calculateZPull cfg i j = cfg.zSeparation := by
    intro h
    unfold calculateZPull
    rw [if_pos h]
  refine ⟨fun hc hs => ?_, hfull⟩
  rw [hc] at hs
  have hd : pointDistance cfg i j = cfg.cubeSize - 1 := by
    simp only [pointDistance, gridDistance, hc, if_pos]
    exact hs
  exact hfull (le_of_eq hd)

/-- Witness for C4 at the default cube configuration, shell point
(14, 10): the displacement is the full zSeparation. -/
theorem spec_C4_witness :
    cfgDefault.shapeType = ShapeType.cube ∧
    isOnShapeShell 14 10 cfgDefault.shapeType cfgDefault.cubeSize
      cfgDefault.selectedPointX cfgDefault.selectedPointY ∧
    calculateZPull cfgDefault 14 10 = cfgDefault.zSeparation := by
  have hc : cfgDefault.shapeType = ShapeType.cube := rfl
  have hs : isOnShapeShell 14 10 cfgDefault.shapeType cfgDefault.cubeSize
      cfgDefault.selectedPointX cfgDefault.selectedPointY := by
    show isOnShapeShell 14 10 ShapeType.cube 5 10 10
    exact isOnShapeShell_cube_14_10
  exact ⟨hc, hs, (spec_C4 cfgDefault 14 10).1 hc hs⟩

/-- C5, counterexample: the shell and inside predicates are not disjoint.
For both shapes, the point (14, 10) with size 5 and center (10, 10)
satisfies the shell predicate and the inside predicate simultaneously
(the inside predicate uses distance at most size - 1, which includes the
boundary; the repository test suite itself asserts
isInsideCube(14, 10, 10, 10, 5) to be true). -/
theorem spec_C5_cex :
    (isOnShapeShell 14 10 ShapeType.cube 5 10 10 ∧
      isInsideShape 14 10 ShapeType.cube 5 10 10) ∧
    (isOnShapeShell 14 10 ShapeType.sphere 5 10 10 ∧
      isInsideShape 14 10 ShapeType.sphere 5 10 10) := by
  refine ⟨⟨isOnShapeShell_cube_14_10, ?_⟩, ⟨?_, ?_⟩⟩
  · show max |(14:ℝ) - 10| |(10:ℝ) - 10| ≤ 5 - 1
    norm_num
  · show |sphereDistance 14 10 10 10 - (5 - 1)| ≤ 0.7
    rw [sphereDistance_14_10]
    norm_num
  · show sphereDistance 14 10 10 10 ≤ 5 - 1
    rw [sphereDistance_14_10]
    norm_num

/-- C5, amended: disjointness holds at the level of the classifier, not
of the raw predicates: whenever the shell predicate holds, classifyPoint
returns shell and in particular never interior, because the shell test is
applied first. -/
theorem spec_C5_amended (i j : ℝ) (t : ShapeType) (s cx cy : ℝ)
    (h : isOnShapeShell i j t s cx cy) :
    classifyPoint i j t s cx cy = RegionLabel.shell ∧
    classifyPoint i j t s cx cy ≠ RegionLabel.interior := by
  unfold classifyPoint
  rw [if_pos h]
  exact ⟨rfl, fun hc => RegionLabel.noConfusion hc⟩

/-- Witness for the amended C5 at the cube shell point (14, 10). -/
theorem spec_C5_witness :
    isOnShapeShell 14 10 ShapeType.cube 5 10 10 ∧
    (classifyPoint 14 10 ShapeType.cube 5 10 10 = RegionLabel.shell ∧
      classifyPoint 14 10 ShapeType.cube 5 10 10 ≠ RegionLabel.interior) :=
  ⟨isOnShapeShell_cube_14_10,
    spec_C5_amended 14 10 ShapeType.cube 5 10 10 isOnShapeShell_cube_14_10⟩

/-- C6: the sphere shell predicate holds exactly when the Euclidean
distance is within 0.7 of size - 1; with size 5 and center (10, 10) a
point at distance exactly 4 is shell, one at distance 4.69 is shell, and
one at distance 4.71 is not. -/
theorem spec_C6 :
    (∀ i j centerX centerY sphereRadius : ℝ,
      isOnSphereSurface i j centerX centerY sphereRadius ↔
        |sphereDistance i j centerX centerY - (sphereRadius - 1)| ≤ 0.7) ∧
    sphereDistance 14 10 10 10 = 4 ∧
    isOnSphereSurface 14 10 10 10 5 ∧
    sphereDistance 14.69 10 10 10 = 4.69 ∧
    isOnSphereSurface 14.69 10 10 10 5 ∧
    sphereDistance 14.71 10 10 10 = 4.71 ∧
    ¬ isOnSphereSurface 14.71 10 10 10 5 := by
  have h469 : sphereDistance 14.69 10 10 10 = 4.69 := by
    unfold sphereDistance
    rw [show ((14.69:ℝ) - 10) * ((14.69:ℝ) - 10) + ((10:ℝ) - 10) * ((10:ℝ) - 10) =
      4.69 * 4.69 by norm_num]
    exact Real.sqrt_mul_self (by norm_num)
  have h471 : sphereDistance 14.71 10 10 10 = 4.71 := by
    unfold sphereDistance
    rw [show ((14.71:ℝ) - 10) * ((14.71:ℝ) - 10) + ((10:ℝ) - 10) * ((10:ℝ) - 10) =
      4.71 * 4.71 by norm_num]
    exact Real.sqrt_mul_self (by norm_num)
  refine ⟨fun _ _ _ _ _ => Iff.rfl, sphereDistance_14_10, ?_, h469, ?_, h471, ?_⟩
  · unfold isOnSphereSurface
    rw [sphereDistance_14_10]
    norm_num
  · unfold isOnSphereSurface
    rw [h469]
    norm_num
    rw [abs_of_nonneg (by norm_num : (0:ℝ) ≤ 69 / 100)]
    norm_num
  · unfold isOnSphereSurface
    rw [h471]
    norm_num
    rw [abs_of_nonneg (by norm_num : (0:ℝ) ≤ 71 / 100)]
    norm_num

/-- C3, code divergence: at the default configuration the lateral
front-layer segment from (10, 10) to (11, 10) is admitted by the segment
builder of script3d.js although both endpoints classify interior, and the
front-grid line builder of script.js admits the same segment because both
endpoints are inside the cube. -/
theorem spec_C3_bug :
    ((10, 10), (11, 10)) ∈ frontLayerSegments cfgDefault ∧
    classifyGridPoint cfgDefault 10 10 = RegionLabel.interior ∧
    classifyGridPoint cfgDefault 11 10 = RegionLabel.interior ∧
    frontSegment2dAdmittedH cfgDefault 10 10 := by
  refine ⟨?_, classifyGridPoint_cfgDefault_interior10,
    classifyGridPoint_cfgDefault_interior11, ?_⟩
  · decide
  · simp only [frontSegment2dAdmittedH, isInsideCube2d, cfgDefault]
    norm_num

/-- C7: a grid point belongs to an intermediate slice exactly when the
slice height lies strictly between the flat reference height backZ and
the displaced height of that point, and a slice segment between two
adjacent points is emitted exactly when its index is in range and both
endpoints belong to the slice. -/
theorem spec_C7 (cfg : Config) (s i j : ℕ) (hs : 1 ≤ s)
    (hsp : 0 < spacing cfg) (hz : spacing cfg < |cfg.zSeparation|) :
    (isInFootprint cfg (sliceZ cfg s) (frontZ cfg i j) ↔
      strictlyBetween backZ (sliceZ cfg s) (frontZ cfg i j)) ∧
    (sliceSegmentEmittedH cfg s i j ↔
      i < cfg.gridDensity ∧
        strictlyBetween backZ (sliceZ cfg s) (frontZ cfg i j) ∧
        strictlyBetween backZ (sliceZ cfg s) (frontZ cfg (i + 1) j)) ∧
    (sliceSegmentEmittedV cfg s i j ↔
      j < cfg.gridDensity ∧
        strictlyBetween backZ (sliceZ cfg s) (frontZ cfg i j) ∧
        strictlyBetween backZ (sliceZ cfg s) (frontZ cfg i (j + 1))) := by
  have key : ∀ fz : ℝ, isInFootprint cfg (sliceZ cfg s) fz ↔
      strictlyBetween backZ (sliceZ cfg s) fz := by
    intro fz
    have hs1 : (1:ℝ) ≤ (s:ℝ) := by exact_mod_cast hs
    rcases lt_trichotomy cfg.zSeparation 0 with hneg | hzero | hpos
    · have hsign : Real.sign cfg.zSeparation = -1 := Real.sign_of_neg hneg
      have hlt : sliceZ cfg s < backZ := by
        unfold sliceZ
        rw [hsign]
        nlinarith
      constructor
      · rintro (⟨hp, -, -⟩ | ⟨-, h1, h2⟩)
        · linarith
        · exact Or.inr ⟨h2, h1⟩
      · rintro (⟨h1, -⟩ | ⟨h1, h2⟩)
        · linarith
        · exact Or.inr ⟨hneg, h2, h1⟩
    · exfalso
      rw [hzero] at hz
      simp at hz
      linarith
    · have hsign : Real.sign cfg.zSeparation = 1 := Real.sign_of_pos hpos
      have hgt : backZ < sliceZ cfg s := by
        unfold sliceZ
        rw [hsign]
        nlinarith
      constructor
      · rintro (⟨-, h1, h2⟩ | ⟨hn, -, -⟩)
        · exact Or.inl ⟨h1, h2⟩
        · linarith
      · rintro (⟨h1, h2⟩ | ⟨-, h2⟩)
        · exact Or.inl ⟨hpos, h1, h2⟩
        · linarith
  refine ⟨key _, ?_, ?_⟩
  · unfold sliceSegmentEmittedH
    rw [key, key]
  · unfold sliceSegmentEmittedV
    rw [key, key]

/-- Witness for C7 at the default configuration, slice 1, point (0, 0):
spacing is 35 and the absolute zSeparation 200 exceeds it. -/
theorem spec_C7_witness :
    1 ≤ 1 ∧ 0 < spacing cfgDefault ∧ spacing cfgDefault < |cfgDefault.zSeparation| ∧
    (isInFootprint cfgDefault (sliceZ cfgDefault 1) (frontZ cfgDefault 0 0) ↔
      strictlyBetween backZ (sliceZ cfgDefault 1) (frontZ cfgDefault 0 0)) := by
  have hsp : 0 < spacing cfgDefault := by
    norm_num [spacing, cfgDefault]
  have hz : spacing cfgDefault < |cfgDefault.zSeparation| := by
    have habs : |cfgDefault.zSeparation| = 200 := by
      rw [show cfgDefault.zSeparation = (200:ℝ) from rfl]
      rw [abs_of_nonneg (by norm_num : (0:ℝ) ≤ 200)]
    rw [habs]
    norm_num [spacing, cfgDefault]
  exact ⟨le_refl 1, hsp, hz, (spec_C7 cfgDefault 1 0 0 (le_refl 1) hsp hz).1⟩

/-- C8, code divergence: at the default configuration the vertical wall
connector at (10, 10) is admitted by updateVisualization of script3d.js
(its absolute displacement 200 exceeds the 0.1 threshold) although the
point classifies interior; the claim requires connectors never to be
admitted at interior points. -/
theorem spec_C8_bug :
    zConnectionAdmitted cfgDefault 10 10 ∧
    classifyGridPoint cfgDefault 10 10 = RegionLabel.interior := by
  refine ⟨?_, classifyGridPoint_cfgDefault_interior10⟩
  unfold zConnectionAdmitted
  rw [show ((10:ℕ):ℝ) = (10:ℝ) by norm_num, calculateZPull_cfgDefault_center]
  rw [abs_of_nonneg (by norm_num : (0:ℝ) ≤ 200)]
  norm_num

end GridCube
